import Mathlib

/-!
A shallow embedding of the authentication core of `subseq_util`
(`src/oidc.rs` and `src/api/warp/sessions.rs`), together with theorems
checking the specification's claims against it.

Modelling conventions:
* Rust `String` / `&str` values are `List Char` (`Str` below), so the
  colon-splitting of the compact bearer codec is `List.splitOn`.
* Fallible Rust functions returning `anyhow::Result<T>` become
  `Except Str T`; functions returning `Option<T>` become `Option T`.
* External collaborators (the `openidconnect` crate's JWT parsing,
  signature verification and access-token hashing, `serde_json` codecs,
  URL/URI parsing, and the `ValidatesIdentity::validate_session` method
  whose definition lives outside the given sources) are a record of
  abstract functions (`Ext`); the core's functions are parametric in it.
  The embedded functions themselves are transcribed from the Rust source.
* Network calls (the token-endpoint exchanges) are oracles passed as
  arguments; functions that may perform one also return a `Bool` flag
  recording whether the network was reached.
-/

deriving instance DecidableEq for Except

namespace Subseq

/-- Rust strings, modelled as their character lists. -/
abbrev Str := List Char

/-- Shorthand turning a Lean string literal into the `Str` model. -/
def str (s : String) : Str := s.data

/-- Opaque model of `uuid::Uuid` (`NoAuthToken.user_id`). -/
abbrev Uuid := Nat

/-- Model of `openidconnect::core::CoreIdTokenClaims`: the fields that
`validate_token` consults (the nonce claim and the optional
access-token-hash claim), plus the subject. -/
structure IdTokenClaims where
  sub : Str
  nonce : Option Str
  accessTokenHash : Option Str
deriving DecidableEq

/-- Model of `openidconnect::core::CoreIdToken` (an external collaborator:
this repository does not implement JWTs).  It carries its claims payload,
whether its signature verifies under the provider's published keys, and
the signing algorithm `signing_alg()` would report (`none` models the
case where algorithm extraction fails). -/
structure IdToken where
  payload : IdTokenClaims
  sigOk : Bool
  alg : Option Str
deriving DecidableEq

/-- Model of `CoreIdToken::claims(&verifier, &nonce)` from the
`openidconnect` crate: verifies the token's signature and checks that the
embedded nonce claim equals the expected nonce, returning the claims on
success. -/
def IdToken.claims (t : IdToken) (nonce : Str) : Except Str IdTokenClaims :=
  if t.sigOk = false then .error (str "signature verification failed")
  else
    match t.payload.nonce with
    | none => .error (str "missing nonce claim")
    | some n => if n = nonce then .ok t.payload else .error (str "nonce mismatch")

/-- Model of `CoreIdToken::signing_alg()`. -/
def IdToken.signing_alg (t : IdToken) : Except Str Str :=
  match t.alg with
  | some a => .ok a
  | none => .error (str "unsupported signing algorithm")

/-- `OidcToken` from `src/oidc.rs`: the token bundle. -/
structure OidcToken where
  id_token : IdToken
  access_token : Str
  refresh_token : Option Str
  nonce : Str
deriving DecidableEq

/-- Model of `openidconnect::core::CoreTokenResponse`: the accessors the
source uses (`id_token()`, `access_token()`, `refresh_token()`). -/
structure TokenResponse where
  id_token : Option IdToken
  access_token : Str
  refresh_token : Option Str
deriving DecidableEq

/-- `AuthenticatedUser` from `crate::api` (fields as constructed in
`src/api/warp/sessions.rs`). -/
structure AuthenticatedUser where
  id : Uuid
  username : Str
  email : Str
  email_verified : Bool
  given_name : Option Str
  family_name : Option Str
deriving DecidableEq

/-- `IdentityProvider` from `src/oidc.rs`; the discovered `client` is an
external handle (its operations are oracles/`Ext` members), so only the
data the embedded functions read is kept. -/
structure IdentityProvider where
  base_url : Str
  logout_url : Str
deriving DecidableEq

/-- `AuthRejectReason` from `crate::api`, with the variants exactly as
matched in `src/api/warp/mod.rs` and constructed in
`src/api/warp/sessions.rs`. -/
inductive AuthRejectReason where
  | NoSessionToken
  | InvalidSessionToken (reason : Str)
  | OidcError (msg : Str)
  | CsrfMismatch
  | TokenTransferFailed (msg : Str)
  | InvalidCredentials
deriving DecidableEq

/-- A warp `Rejection` as produced by the embedded handlers: either an
`AuthRejectReason`, an `AnyhowError` (from `map_err(AnyhowError::from)`),
or `RejectReason::BadRequest` (from the `redirect` helper). -/
inductive Rejection where
  | auth (r : AuthRejectReason)
  | anyhowErr (msg : Str)
  | badRequest (reason : Str)
deriving DecidableEq

/-- A warp reply, kept as the shape the handlers build: a redirect, an
HTML body, a built `Response`, or a reply wrapped by
`warp::reply::with_header`. -/
inductive Reply where
  | redirect (uri : Str)
  | html (content : Str)
  | response (body : Str)
  | withHeader (name value : Str) (inner : Reply)
deriving DecidableEq

/-- Does a reply carry the given header (added via `with_header` /
header-map extension)? -/
def Reply.hasHeader : Reply → Str → Str → Bool
  | .withHeader n v inner, name, value =>
      (n = name ∧ v = value) ∨ inner.hasHeader name value
  | _, _, _ => false

/-- Values stored in the `warp_sessions` session: the handlers insert
strings (csrf token, verifier, nonce, redirect targets), `OidcToken`
bundles and `NoAuthToken` records. -/
inductive SessVal where
  | vStr (s : Str)
  | vOidc (t : OidcToken)
  | vNoAuth (user_id : Uuid)
deriving DecidableEq

/-- The per-request session (`SessionWithStore.session`): its key/value
data, the `data_changed` flag, and the destroyed flag set by
`Session::destroy` (the store deletes every stored value of a destroyed
session when the response is finalized). -/
structure Session where
  data : List (Str × SessVal)
  data_changed : Bool
  destroyed : Bool
deriving DecidableEq

/-- Key lookup in the session data. -/
def Session.get (s : Session) (k : Str) : Option SessVal :=
  match s.data.find? (fun p => p.1 = k) with
  | some p => some p.2
  | none => none

/-- `session.get::<String>(k)`: deserializing a stored value as a string
succeeds exactly on string-typed values. -/
def Session.getStr (s : Session) (k : Str) : Option Str :=
  match s.get k with
  | some (.vStr v) => some v
  | _ => none

/-- Replace-or-append of a key/value pair. -/
def insertKV (k : Str) (v : SessVal) : List (Str × SessVal) → List (Str × SessVal)
  | [] => [(k, v)]
  | (k1, v1) :: rest => if k1 = k then (k, v) :: rest else (k1, v1) :: insertKV k v rest

/-- `session.insert(k, v)`: stores the value and marks the data changed. -/
def Session.insert (s : Session) (k : Str) (v : SessVal) : Session :=
  { s with data := insertKV k v s.data, data_changed := true }

/-- `session.destroy()`: marks the session destroyed, so the store drops
all of its values (flow state and token bundle included) at finalize. -/
def Session.destroy (s : Session) : Session :=
  { s with destroyed := true, data_changed := true }

/-- The external collaborators the core consumes (spec §6): JWT parsing
and serialization, access-token hashing, the `serde_json` codecs used for
the cookie/session encoding, URL decoding and URI parsing, the session
store's raw value serialization, debug formatting of rejections, and the
`ValidatesIdentity`-based `AuthenticatedUser::validate_session`, whose
definition is outside the given sources. -/
structure Ext where
  idTokenFromStr : Str → Option IdToken
  idTokenToStr : IdToken → Str
  accessTokenHashFromToken : Str → Str → Except Str Str
  oidcCookieDecode : Str → Except Str OidcToken
  noAuthCookieDecode : Str → Except Str Uuid
  urlDecode : Str → Except Str Str
  uriParse : Str → Except Str Str
  serializeVal : SessVal → Str
  rejectionDebug : Rejection → Str
  validateSession : IdentityProvider → OidcToken → Except Str (AuthenticatedUser × Option OidcToken)

/-- `session.get_raw(k)`: the raw serialized form of a stored value. -/
def Session.get_raw (s : Session) (E : Ext) (k : Str) : Option Str :=
  (s.get k).map E.serializeVal

/-- `OidcToken::from_token_response` (`src/oidc.rs`): fails when the
token-endpoint response carries no ID token. -/
def OidcToken.from_token_response (tr : TokenResponse) (nonce : Str) :
    Except Str OidcToken :=
  match tr.id_token with
  | none => .error (str "Server did not provide ID token!")
  | some idt => .ok ⟨idt, tr.access_token, tr.refresh_token, nonce⟩

/-- `OidcToken::refresh` (`src/oidc.rs`): builds the replacement bundle
from a refresh response, keeping `self.nonce`; `None` when the response
has no ID token. -/
def OidcToken.refresh (t : OidcToken) (tr : TokenResponse) : Option OidcToken :=
  match tr.id_token with
  | none => none
  | some idt => some ⟨idt, tr.access_token, tr.refresh_token, t.nonce⟩

/-- `OidcToken::from_bearer` (`src/oidc.rs`): split on `:`; 3 fields give
a bundle without refresh token, 4 fields one with it, anything else is
`None`; the first field must parse as an ID token. -/
def OidcToken.from_bearer (E : Ext) (tok : Str) : Option OidcToken :=
  match tok.splitOn ':' with
  | [p0, p1, p2] =>
      (E.idTokenFromStr p0).map (fun idt => ⟨idt, p1, none, p2⟩)
  | [p0, p1, p2, p3] =>
      (E.idTokenFromStr p0).map (fun idt => ⟨idt, p1, some p2, p3⟩)
  | _ => none

/-- Modelled from the spec: the compact bearer encoding of a token bundle
(the encoder itself is not among the given sources; spec §6 gives the
wire form `"<id_token>:<access_token>:<nonce>"` or
`"<id_token>:<access_token>:<refresh_token>:<nonce>"`). -/
def OidcToken.to_bearer (E : Ext) (t : OidcToken) : Str :=
  match t.refresh_token with
  | none => [':'].intercalate [E.idTokenToStr t.id_token, t.access_token, t.nonce]
  | some r => [':'].intercalate [E.idTokenToStr t.id_token, t.access_token, r, t.nonce]

/-- `IdentityProvider::validate_token` (`src/oidc.rs`): extract the
claims (signature and nonce checked by the external verifier), then, when
an access-token-hash claim is present, recompute the hash of the access
token under the ID token's signing algorithm and require equality. -/
def IdentityProvider.validate_token (E : Ext) (_ip : IdentityProvider)
    (token : OidcToken) : Except Str IdTokenClaims :=
  match token.id_token.claims token.nonce with
  | .error e => .error e
  | .ok claims =>
    match claims.accessTokenHash with
    | some expected =>
      match token.id_token.signing_alg with
      | .error e => .error e
      | .ok alg =>
        match E.accessTokenHashFromToken token.access_token alg with
        | .error e => .error e
        | .ok actual =>
          if actual ≠ expected then .error (str "Invalid access token")
          else .ok claims
    | none => .ok claims

/-- `IdentityProvider::refresh` (`src/oidc.rs`); `exchange` is the
token-endpoint refresh exchange (network oracle), and the `Bool` records
whether it was called. -/
def IdentityProvider.refresh (_ip : IdentityProvider)
    (exchange : Str → Except Str TokenResponse) (token : OidcToken) :
    Except Str OidcToken × Bool :=
  match token.refresh_token with
  | none => (.error (str "No refresh token"), false)
  | some refresh_token =>
    match exchange refresh_token with
    | .error e => (.error e, true)
    | .ok token_response =>
      match token.refresh token_response with
      | some token => (.ok token, true)
      | none => (.error (str "Missing token"), true)

/-- `IdentityProvider::token_oidc` (`src/oidc.rs`): the result of the
code exchange (network oracle output) is turned into a bundle via
`from_token_response` and validated before being returned. -/
def IdentityProvider.token_oidc (E : Ext) (ip : IdentityProvider)
    (exchangeResult : Except Str TokenResponse) (nonce : Str) :
    Except Str OidcToken :=
  match exchangeResult with
  | .error e => .error e
  | .ok token_response =>
    match OidcToken.from_token_response token_response nonce with
    | .error e => .error e
    | .ok oidc_token =>
      match ip.validate_token E oidc_token with
      | .error e => .error e
      | .ok _ => .ok oidc_token

/-- `IdentityProvider::logout_oidc` (`src/oidc.rs`): the end-session URL
with `id_token_hint` and `post_logout_redirect_uri` appended (the `url`
crate's percent-encoding of query pairs is not modelled). -/
def IdentityProvider.logout_oidc (E : Ext) (ip : IdentityProvider)
    (redirect_uri : Str) (token : OidcToken) : Str :=
  ip.logout_url ++ str "?id_token_hint=" ++ E.idTokenToStr token.id_token
    ++ str "&post_logout_redirect_uri=" ++ ip.base_url ++ redirect_uri

/-- `AUTH_COOKIE` (`src/api/warp/sessions.rs`). -/
def AUTH_COOKIE : Str := str "access_token"

/-- `parse_auth_cookie` (`src/api/warp/sessions.rs`): decode the cookie
value via the session/cookie (JSON) encoding; on failure reject with
`InvalidSessionToken` whose reason is `"cookie: <err>"`. -/
def parse_auth_cookie (E : Ext) (cookie_str : Str) : Except Rejection OidcToken :=
  match E.oidcCookieDecode cookie_str with
  | .ok t => .ok t
  | .error e => .error (.auth (.InvalidSessionToken (str "cookie: " ++ e)))

/-- The `redirect` helper (`src/api/warp/sessions.rs`): parse the URL
into a URI (`RejectReason::BadRequest` on failure) and answer a redirect
reply carrying `Cache-Control: no-store, must-revalidate` and
`Expires: 0`. -/
def redirectReply (E : Ext) (url : Str) : Except Rejection Reply :=
  match E.uriParse url with
  | .error e => .error (.badRequest (str "Invalid URL: " ++ e))
  | .ok uri =>
      .ok (.withHeader (str "Expires") (str "0")
            (.withHeader (str "Cache-Control") (str "no-store, must-revalidate")
              (.redirect uri)))

/-- `return Ok((redirect("auth/login")?, session))`, the fallback the
callback handler takes on any missing flow-state field and on a CSRF
state mismatch. -/
def loginRedirect (E : Ext) (session : Session) : Except Rejection (Reply × Session) :=
  (redirectReply E (str "auth/login")).map (fun r => (r, session))

/-- An apostrophe character, used in the handlers' HTML meta-refresh body. -/
def apos : Str := [Char.ofNat 39]

/-- The `format!`-built meta-refresh HTML body used after a successful
callback. -/
def htmlRedirect (uri : Str) : Str :=
  str "<html><head><meta http-equiv=\"refresh\" content=\"0; URL=" ++ apos
    ++ uri ++ apos ++ str "\"/></head></html>"

/-- The query parameters of the OIDC callback (`AuthQuery`). -/
structure AuthQuery where
  code : Str
  state : Str
deriving DecidableEq

/-- `auth_handler` (`src/api/warp/sessions.rs`), the OIDC callback:
read back the flow state (missing field ⇒ redirect to `auth/login`),
decode the stored redirect target, compare the query's `state` with the
stored CSRF token (mismatch ⇒ redirect to `auth/login`), then exchange
the code (`token_oidc`; failure ⇒ `TokenTransferFailed`), store the
bundle in the session and answer the meta-refresh page.  `exchange` is
the token-endpoint oracle (code and verifier to response); the returned
`Bool` records whether the code exchange was performed. -/
def auth_handler (E : Ext) (ip : IdentityProvider) (query : AuthQuery)
    (session : Session) (exchange : Str → Str → Except Str TokenResponse) :
    Except Rejection (Reply × Session) × Bool :=
  match session.getStr (str "csrf_token") with
  | none => (loginRedirect E session, false)
  | some csrf_token =>
  match session.getStr (str "pkce_verifier") with
  | none => (loginRedirect E session, false)
  | some verifier =>
  match session.getStr (str "nonce") with
  | none => (loginRedirect E session, false)
  | some nonce =>
    let redirect_uri : Str :=
      match session.getStr (str "redirect_uri") with
      | some ru =>
        match E.urlDecode ru with
        | .ok s => s
        | .error _ => str "/"
      | none => str "/"
    if query.state ≠ csrf_token then
      (loginRedirect E session, false)
    else
      match ip.token_oidc E (exchange query.code verifier) nonce with
      | .error err => (.error (.auth (.TokenTransferFailed err)), true)
      | .ok token =>
        let session := session.insert (str "token") (.vOidc token)
        (.ok (.html (htmlRedirect redirect_uri), session), true)

/-- One step of Rust's `str::trim_start_matches`, fuelled by the input
length (each removal strips a nonempty prefix, so the fuel suffices). -/
def trimStartAux (pre : Str) : Nat → Str → Str
  | 0, s => s
  | Nat.succ n, s =>
    if pre ≠ [] ∧ pre.isPrefixOf s then trimStartAux pre n (s.drop pre.length)
    else s

/-- Rust's `str::trim_start_matches`: repeatedly remove the pattern from
the front while it matches. -/
def trimStartMatches (pre s : Str) : Str := trimStartAux pre s.length s

/-- `authenticate` (`src/api/warp/sessions.rs`), the per-request guard.
With an IdP: a header starting with `Bearer ` is decoded via
`from_bearer` (its result is an `Option`, so a decode failure falls
through as "no credential"); otherwise a present cookie is decoded via
`parse_auth_cookie` (whose failure propagates as a rejection).  A decoded
bundle goes through `validate_session`; a replacement token is written
back into the session.  No credential records the request path and
rejects with `NoSessionToken`.  Without an IdP only the cookie is looked
at: it must decode as a `NoAuthToken`, which yields the fake local
identity; otherwise `NoSessionToken`. -/
def authenticate (E : Ext) (idp : Option IdentityProvider)
    (cookie : Option Str) (bearer : Option Str) (path : Str)
    (session : Session) : Except Rejection (AuthenticatedUser × Session) :=
  match idp with
  | some ip =>
    let tokenRes : Except Rejection (Option OidcToken) :=
      match bearer with
      | some tok =>
        if (str "Bearer ").isPrefixOf tok then
          .ok (OidcToken.from_bearer E (trimStartMatches (str "Bearer ") tok))
        else
          match cookie with
          | some ctok => (parse_auth_cookie E ctok).map some
          | none => .ok none
      | none =>
        match cookie with
        | some ctok => (parse_auth_cookie E ctok).map some
        | none => .ok none
    match tokenRes with
    | .error e => .error e
    | .ok (some token) =>
      match E.validateSession ip token with
      | .error e => .error (.anyhowErr e)
      | .ok (auth_user, newTok) =>
        let session :=
          match newTok with
          | some t => session.insert (str "token") (.vOidc t)
          | none => session
        .ok (auth_user, session)
    | .ok none =>
      let _session := session.insert (str "redirect_path") (.vStr path)
      .error (.auth .NoSessionToken)
  | none =>
    match cookie with
    | some tok =>
      match E.noAuthCookieDecode tok with
      | .error err => .error (.auth (.InvalidSessionToken (str "cookie: " ++ err)))
      | .ok user_id =>
        .ok ({ id := user_id, username := str "FAKE_NAME", email := str "FAKE_EMAIL",
               email_verified := false, given_name := none, family_name := none },
             session)
    | none => .error (.auth .NoSessionToken)

/-- The `cookie::Cookie` built by `store_auth_cookie`, as its header
string: `Path=/`, `HttpOnly`, `SameSite=Lax`, `Secure`. -/
def authCookieStr (v : Str) : Str :=
  AUTH_COOKIE ++ str "=" ++ v ++ str "; HttpOnly; SameSite=Lax; Secure; Path=/"

/-- `store_auth_cookie` (`src/api/warp/sessions.rs`): when the session
data changed and a raw `"token"` value is stored, add the auth cookie's
`Set-Cookie` header; otherwise add the workaround `Server: Subseq`
header.  The `WithSession` attachment is the returned session. -/
def store_auth_cookie (E : Ext) (reply : Reply) (session : Session) :
    Reply × Session :=
  if session.data_changed = false then
    (.withHeader (str "Server") (str "Subseq") reply, session)
  else
    match session.get_raw E (str "token") with
    | none => (.withHeader (str "Server") (str "Subseq") reply, session)
    | some token_serialized =>
      (.withHeader (str "Set-Cookie") (authCookieStr token_serialized) reply, session)

/-- The cookie-clearing `Set-Cookie` value
`access_token=; Max-Age=0; Path=/; HttpOnly; Secure`. -/
def clearCookie : Str :=
  AUTH_COOKIE ++ str "=; Max-Age=0; Path=/; HttpOnly; Secure"

/-- The `/oauth/logout` route of `provider_routes`
(`src/api/warp/sessions.rs`): destroy the session and answer an empty
response carrying the cookie-clearing header. -/
def oauth_logout (session : Session) : Reply × Session :=
  let session := session.destroy
  (.withHeader (str "Set-Cookie") clearCookie (.response (str "")), session)

/-- `logout_handler` (`src/api/warp/sessions.rs`), the `/auth/logout`
route with an IdP: parse the auth cookie (failure re-wrapped as
`InvalidSessionToken` over the debug form of the inner rejection), build
the provider's end-session URL, and answer a redirect to it carrying the
no-cache headers and the cookie-clearing header.  The session is passed
through unchanged. -/
def logout_handler (E : Ext) (ip : IdentityProvider) (session : Session)
    (token : Str) : Except Rejection (Reply × Session) :=
  match parse_auth_cookie E token with
  | .error err => .error (.auth (.InvalidSessionToken (E.rejectionDebug err)))
  | .ok token =>
    let logout_url := ip.logout_oidc E (str "/") token
    .ok (.withHeader (str "Set-Cookie") clearCookie
          (.withHeader (str "Expires") (str "0")
            (.withHeader (str "Cache-Control") (str "no-store, must-revalidate")
              (.redirect logout_url))),
         session)

/-- Is an `Except` value an error? -/
def isError {ε α : Type} : Except ε α → Bool
  | .error _ => true
  | .ok _ => false

/-! ### Concrete fixtures (used by witnesses and counterexamples) -/

/-- Fixture claims: nonce claim `n0`, no access-token-hash claim. -/
def claims0 : IdTokenClaims :=
  { sub := str "sub0", nonce := some (str "n0"), accessTokenHash := none }

/-- Fixture claims carrying the access-token-hash claim `acc0`. -/
def claimsHash : IdTokenClaims :=
  { sub := str "sub0", nonce := some (str "n0"), accessTokenHash := some (str "acc0") }

/-- Fixture claims carrying a wrong access-token-hash claim. -/
def claimsBadHash : IdTokenClaims :=
  { sub := str "sub0", nonce := some (str "n0"), accessTokenHash := some (str "h1") }

/-- Fixture ID token with valid signature. -/
def idTok0 : IdToken := { payload := claims0, sigOk := true, alg := some (str "RS256") }

/-- Fixture ID token whose claims carry the matching access-token-hash. -/
def idTokHash : IdToken := { payload := claimsHash, sigOk := true, alg := some (str "RS256") }

/-- Fixture ID token whose claims carry a mismatched access-token-hash. -/
def idTokBadHash : IdToken :=
  { payload := claimsBadHash, sigOk := true, alg := some (str "RS256") }

/-- Fixture bundle without a refresh token. -/
def tok0 : OidcToken :=
  { id_token := idTok0, access_token := str "acc0", refresh_token := none, nonce := str "n0" }

/-- Fixture bundle with a refresh token. -/
def tok1 : OidcToken :=
  { id_token := idTok0, access_token := str "acc0", refresh_token := some (str "ref0"),
    nonce := str "n0" }

/-- Fixture bundle whose stored nonce differs from the nonce claim. -/
def tokBadNonce : OidcToken :=
  { id_token := idTok0, access_token := str "acc0", refresh_token := none, nonce := str "zz" }

/-- Fixture bundle whose access-token-hash claim mismatches the
recomputed hash. -/
def tokBadHash : OidcToken :=
  { id_token := idTokBadHash, access_token := str "acc0", refresh_token := none,
    nonce := str "n0" }

/-- Fixture bundle passing both the nonce and the hash check. -/
def tokGood : OidcToken :=
  { id_token := idTokHash, access_token := str "acc0", refresh_token := none,
    nonce := str "n0" }

/-- Fixture token-endpoint response carrying an ID token. -/
def trGood : TokenResponse :=
  { id_token := some idTok0, access_token := str "acc1", refresh_token := some (str "r1") }

/-- Fixture token-endpoint response with the ID token omitted. -/
def trNoId : TokenResponse :=
  { id_token := none, access_token := str "a", refresh_token := none }

/-- The bundle `OidcToken::refresh` builds from `tok0` and `trGood`. -/
def tokRefreshed : OidcToken :=
  { id_token := idTok0, access_token := str "acc1", refresh_token := some (str "r1"),
    nonce := str "n0" }

/-- Fixture authenticated user. -/
def user0 : AuthenticatedUser :=
  { id := 7, username := str "u0", email := str "e0", email_verified := true,
    given_name := none, family_name := none }

/-- Fixture identity provider. -/
def ip0 : IdentityProvider :=
  { base_url := str "https://app/", logout_url := str "https://idp/logout" }

/-- Fixture external collaborators: the ID-token codec recognizes the
string `idtok`, the cookie codec the string `cookie0`, the `NoAuthToken`
codec the string `uid7`; the access-token hash of a token is the token
itself. -/
def ExtZero : Ext :=
  { idTokenFromStr := fun s => if s = str "idtok" then some idTok0 else none,
    idTokenToStr := fun _ => str "idtok",
    accessTokenHashFromToken := fun a _ => .ok a,
    oidcCookieDecode := fun s => if s = str "cookie0" then .ok tok0 else .error (str "bad json"),
    noAuthCookieDecode := fun s => if s = str "uid7" then .ok 7 else .error (str "bad json"),
    urlDecode := fun s => .ok s,
    uriParse := fun s => .ok s,
    serializeVal := fun _ => str "serialized",
    rejectionDebug := fun _ => str "rejection",
    validateSession := fun _ _ => .ok (user0, none) }

/-- Network oracle that always fails (the fixtures never reach it). -/
def exFail : Str → Str → Except Str TokenResponse := fun _ _ => .error (str "no network")

/-- Refresh-exchange oracle that always fails. -/
def exFail1 : Str → Except Str TokenResponse := fun _ => .error (str "no network")

/-- An empty, unchanged session. -/
def sessEmpty : Session := { data := [], data_changed := false, destroyed := false }

/-- A session holding the flow state written by `login_handler`. -/
def sessFlow : Session :=
  { data := [(str "csrf_token", .vStr (str "csrf0")),
             (str "pkce_verifier", .vStr (str "ver0")),
             (str "nonce", .vStr (str "n0"))],
    data_changed := false, destroyed := false }

/-- A session holding a stored token bundle, unchanged this request. -/
def sessTok : Session :=
  { data := [(str "token", .vOidc tok0)], data_changed := false, destroyed := false }

/-- A session holding a stored token bundle, changed this request. -/
def sessChangedTok : Session :=
  { data := [(str "token", .vOidc tok0)], data_changed := true, destroyed := false }

/-- A changed session without a stored token. -/
def sessChangedNoTok : Session :=
  { data := [], data_changed := true, destroyed := false }

/-! ### Helper lemmas about the external-verifier model -/

/-- The modelled claims extraction succeeds exactly on a valid signature
and a matching nonce claim, returning the payload. -/
theorem claims_ok_of (tok : IdToken) (n : Str) (hs : tok.sigOk = true)
    (hn : tok.payload.nonce = some n) : tok.claims n = .ok tok.payload := by
  unfold IdToken.claims
  rw [hs, hn]
  simp

/-- A nonce claim differing from the expected nonce makes the modelled
claims extraction fail. -/
theorem claims_isError_of_nonce_ne (tok : IdToken) (n : Str)
    (hn : tok.payload.nonce ≠ some n) : isError (tok.claims n) = true := by
  unfold IdToken.claims
  by_cases hs : tok.sigOk = false
  · rw [if_pos hs]
    rfl
  · rw [if_neg hs]
    cases hp : tok.payload.nonce with
    | none => rfl
    | some m =>
      have hmn : ¬ (m = n) := fun he => hn (by rw [hp, he])
      show isError (if m = n then Except.ok tok.payload
        else Except.error (str "nonce mismatch")) = true
      rw [if_neg hmn]
      rfl

/-- When the modelled claims extraction succeeds, it returned the
payload. -/
theorem claims_ok_eq (tok : IdToken) (n : Str) (c : IdTokenClaims)
    (h : tok.claims n = .ok c) : c = tok.payload := by
  unfold IdToken.claims at h
  by_cases hs : tok.sigOk = false
  · rw [if_pos hs] at h
    exact Except.noConfusion h
  · rw [if_neg hs] at h
    cases hp : tok.payload.nonce with
    | none => rw [hp] at h; exact Except.noConfusion h
    | some m =>
      rw [hp] at h
      have h2 : (if m = n then Except.ok tok.payload
          else Except.error (str "nonce mismatch")) = Except.ok c := h
      by_cases hm : m = n
      · rw [if_pos hm] at h2
        injection h2 with h2
        exact h2.symm
      · rw [if_neg hm] at h2
        exact Except.noConfusion h2

/-! ### Claim theorems -/

/-- C3: for every valid token bundle — its serialized ID token parses
back to itself and none of its fields contains the `:` delimiter — with
or without a refresh token, encoding into the compact bearer form (3 or 4
colon-delimited fields) and decoding with `OidcToken::from_bearer` yields
the original bundle. -/
theorem from_bearer_to_bearer_round_trip (E : Ext) (t : OidcToken)
    (hid : E.idTokenFromStr (E.idTokenToStr t.id_token) = some t.id_token)
    (h0 : ':' ∉ E.idTokenToStr t.id_token)
    (h1 : ':' ∉ t.access_token)
    (h2 : ∀ r ∈ t.refresh_token.toList, ':' ∉ r)
    (h3 : ':' ∉ t.nonce) :
    OidcToken.from_bearer E (OidcToken.to_bearer E t) = some t := by
  obtain ⟨idt, access, rft, nonce⟩ := t
  cases rft with
  | none =>
    have hs : ([':'].intercalate [E.idTokenToStr idt, access, nonce]).splitOn ':'
        = [E.idTokenToStr idt, access, nonce] := by
      refine List.splitOn_intercalate _ ':' ?_ (by simp)
      intro l hl
      simp only [List.mem_cons, List.not_mem_nil, or_false] at hl
      rcases hl with h | h | h <;> subst h
      · exact h0
      · exact h1
      · exact h3
    simp only [OidcToken.to_bearer, OidcToken.from_bearer, hs, hid, Option.map_some']
  | some r =>
    have hr : ':' ∉ r := h2 r (by simp)
    have hs : ([':'].intercalate [E.idTokenToStr idt, access, r, nonce]).splitOn ':'
        = [E.idTokenToStr idt, access, r, nonce] := by
      refine List.splitOn_intercalate _ ':' ?_ (by simp)
      intro l hl
      simp only [List.mem_cons, List.not_mem_nil, or_false] at hl
      rcases hl with h | h | h | h <;> subst h
      · exact h0
      · exact h1
      · exact hr
      · exact h3
    simp only [OidcToken.to_bearer, OidcToken.from_bearer, hs, hid, Option.map_some']

/-- C3 witness: the round trip at a concrete 4-field bundle. -/
theorem from_bearer_to_bearer_round_trip_witness :
    ExtZero.idTokenFromStr (ExtZero.idTokenToStr tok1.id_token) = some tok1.id_token
    ∧ OidcToken.from_bearer ExtZero (OidcToken.to_bearer ExtZero tok1) = some tok1 :=
  ⟨by decide, from_bearer_to_bearer_round_trip ExtZero tok1 (by decide) (by decide)
      (by decide) (by decide) (by decide)⟩

/-- C5: `IdentityProvider::refresh` on a bundle without a refresh token
fails with the "No refresh token" error and never calls the
token-endpoint exchange (the network flag stays `false`). -/
theorem refresh_without_refresh_token (ip : IdentityProvider)
    (exchange : Str → Except Str TokenResponse) (token : OidcToken)
    (h : token.refresh_token = none) :
    ip.refresh exchange token = (.error (str "No refresh token"), false) := by
  unfold IdentityProvider.refresh
  rw [h]

/-- C5 witness: the refresh refusal at a concrete bundle. -/
theorem refresh_without_refresh_token_witness :
    tok0.refresh_token = none
    ∧ ip0.refresh exFail1 tok0 = (.error (str "No refresh token"), false) :=
  ⟨rfl, refresh_without_refresh_token ip0 exFail1 tok0 rfl⟩

/-- C6: whenever `OidcToken::refresh` builds a replacement bundle from a
refresh response, the replacement carries the original bundle's nonce. -/
theorem refresh_preserves_nonce (t : OidcToken) (tr : TokenResponse) (t2 : OidcToken)
    (h : t.refresh tr = some t2) : t2.nonce = t.nonce := by
  unfold OidcToken.refresh at h
  cases hid : tr.id_token with
  | none =>
    rw [hid] at h
    exact Option.noConfusion h
  | some idt =>
    rw [hid] at h
    injection h with h
    subst h
    rfl

/-- C6 witness: nonce preservation at a concrete refresh. -/
theorem refresh_preserves_nonce_witness :
    OidcToken.refresh tok0 trGood = some tokRefreshed
    ∧ tokRefreshed.nonce = tok0.nonce :=
  ⟨by decide, refresh_preserves_nonce tok0 trGood tokRefreshed (by decide)⟩

/-- C8: a token-exchange response without an ID token makes
`OidcToken::from_token_response` fail, and hence `token_oidc` fails and
returns no bundle for such an exchange result. -/
theorem token_exchange_missing_id_token (E : Ext) (ip : IdentityProvider)
    (tr : TokenResponse) (nonce : Str) (h : tr.id_token = none) :
    OidcToken.from_token_response tr nonce =
      .error (str "Server did not provide ID token!")
    ∧ ip.token_oidc E (.ok tr) nonce =
        .error (str "Server did not provide ID token!") := by
  have h1 : OidcToken.from_token_response tr nonce =
      .error (str "Server did not provide ID token!") := by
    unfold OidcToken.from_token_response
    rw [h]
  refine ⟨h1, ?_⟩
  simp only [IdentityProvider.token_oidc, h1]

/-- C8 witness: the failure at a concrete ID-token-less response. -/
theorem token_exchange_missing_id_token_witness :
    trNoId.id_token = none
    ∧ ip0.token_oidc ExtZero (.ok trNoId) (str "n0") =
        .error (str "Server did not provide ID token!") :=
  ⟨rfl, (token_exchange_missing_id_token ExtZero ip0 trNoId (str "n0") rfl).2⟩

/-- C4: `validate_token` fails whenever the nonce embedded in the ID
token's claims differs from the bundle's stored nonce; fails whenever the
claims carry an access-token-hash that does not equal the recomputed hash
of the bundle's access token; and returns the claims when the signature
verifies, the nonce matches, and any present access-token-hash equals the
recomputed hash. -/
theorem validate_token_checks (E : Ext) (ip : IdentityProvider) (t : OidcToken) :
    (t.id_token.payload.nonce ≠ some t.nonce →
      isError (ip.validate_token E t) = true)
  ∧ (∀ h alg a, t.id_token.payload.accessTokenHash = some h →
      t.id_token.signing_alg = .ok alg →
      E.accessTokenHashFromToken t.access_token alg = .ok a → a ≠ h →
      isError (ip.validate_token E t) = true)
  ∧ (t.id_token.sigOk = true → t.id_token.payload.nonce = some t.nonce →
      (t.id_token.payload.accessTokenHash = none ∨
        ∃ h alg, t.id_token.payload.accessTokenHash = some h ∧
          t.id_token.signing_alg = .ok alg ∧
          E.accessTokenHashFromToken t.access_token alg = .ok h) →
      ip.validate_token E t = .ok t.id_token.payload) := by
  refine ⟨?_, ?_, ?_⟩
  · intro hn
    have he := claims_isError_of_nonce_ne t.id_token t.nonce hn
    cases hc : t.id_token.claims t.nonce with
    | error e => simp only [IdentityProvider.validate_token, hc]; rfl
    | ok c => rw [hc] at he; exact absurd he (by simp [isError])
  · intro h alg a hh halg hhash hne
    cases hc : t.id_token.claims t.nonce with
    | error e => simp only [IdentityProvider.validate_token, hc]; rfl
    | ok c =>
      have hce := claims_ok_eq t.id_token t.nonce c hc
      subst hce
      simp only [IdentityProvider.validate_token, hc, hh, halg, hhash]
      rw [if_pos hne]
      rfl
  · intro hsig hn hhash
    have hc := claims_ok_of t.id_token t.nonce hsig hn
    rcases hhash with hnone | ⟨h, alg, hh, halg, hok⟩
    · simp only [IdentityProvider.validate_token, hc, hnone]
    · simp only [IdentityProvider.validate_token, hc, hh, halg, hok]
      rw [if_neg (by simp)]

/-- C4 witness: the three parts at concrete bundles — stored nonce
differing from the nonce claim, mismatched access-token-hash claim, and a
fully valid bundle. -/
theorem validate_token_checks_witness :
    isError (ip0.validate_token ExtZero tokBadNonce) = true
    ∧ isError (ip0.validate_token ExtZero tokBadHash) = true
    ∧ ip0.validate_token ExtZero tokGood = .ok tokGood.id_token.payload :=
  ⟨(validate_token_checks ExtZero ip0 tokBadNonce).1 (by decide),
   (validate_token_checks ExtZero ip0 tokBadHash).2.1 (str "h1") (str "RS256") (str "acc0")
     (by decide) (by decide) (by decide) (by decide),
   (validate_token_checks ExtZero ip0 tokGood).2.2 (by decide) (by decide)
     (Or.inr ⟨str "acc0", str "RS256", by decide, by decide, by decide⟩)⟩

/-- C1 counterexample: on a callback whose `state` differs from the
stored CSRF token, `auth_handler` answers the redirect-to-login reply —
it does not yield the `CsrfMismatch` rejection the claim states. -/
theorem auth_handler_mismatch_counterexample :
    auth_handler ExtZero ip0 ⟨str "code0", str "WRONG"⟩ sessFlow exFail =
      (loginRedirect ExtZero sessFlow, false)
    ∧ loginRedirect ExtZero sessFlow ≠
        Except.error (Rejection.auth AuthRejectReason.CsrfMismatch) := by
  exact ⟨by decide, by decide⟩

/-- C1 (amended): on a callback whose `state` differs from the stored
CSRF token, `auth_handler` redirects the client back to `auth/login`
(restart login) and the authorization-code exchange with the IdP is never
performed — but no `CsrfMismatch` rejection is raised. -/
theorem auth_handler_state_mismatch_restarts_login (E : Ext) (ip : IdentityProvider)
    (query : AuthQuery) (session : Session)
    (exchange : Str → Str → Except Str TokenResponse) (csrf : Str)
    (hc : session.getStr (str "csrf_token") = some csrf)
    (hs : query.state ≠ csrf) :
    auth_handler E ip query session exchange = (loginRedirect E session, false) := by
  unfold auth_handler
  rw [hc]
  cases session.getStr (str "pkce_verifier") with
  | none => rfl
  | some v =>
    cases session.getStr (str "nonce") with
    | none => rfl
    | some n => simp only [if_pos hs]

/-- C1 witness: the redirect-and-no-exchange outcome at a concrete
mismatched callback. -/
theorem auth_handler_state_mismatch_restarts_login_witness :
    sessFlow.getStr (str "csrf_token") = some (str "csrf0")
    ∧ auth_handler ExtZero ip0 ⟨str "code0", str "WRONG"⟩ sessFlow exFail =
        (loginRedirect ExtZero sessFlow, false) :=
  ⟨by decide, auth_handler_state_mismatch_restarts_login ExtZero ip0 _ _ exFail
      (str "csrf0") (by decide) (by decide)⟩

/-- C2 counterexample: with an IdP configured, a bearer credential that
fails to decode makes the guard reject with `NoSessionToken`, not with
the `InvalidSessionToken` the claim states for every undecodable
credential. -/
theorem authenticate_bearer_failure_counterexample :
    OidcToken.from_bearer ExtZero (trimStartMatches (str "Bearer ") (str "Bearer bad")) = none
    ∧ authenticate ExtZero (some ip0) none (some (str "Bearer bad")) (str "/p") sessEmpty =
        Except.error (.auth .NoSessionToken) := by
  exact ⟨by decide, by decide⟩

/-- C2 (amended): with an IdP configured, a cookie credential that fails
to decode yields `InvalidSessionToken` with reason `cookie: <err>`, but a
bearer credential that fails to decode falls through as "no credential"
and yields `NoSessionToken`. -/
theorem authenticate_decode_failure (E : Ext) (ip : IdentityProvider)
    (cookie bearer : Option Str) (path : Str) (session : Session) :
    (∀ b, bearer = some b → (str "Bearer ").isPrefixOf b = true →
      OidcToken.from_bearer E (trimStartMatches (str "Bearer ") b) = none →
      authenticate E (some ip) cookie bearer path session =
        Except.error (.auth .NoSessionToken))
  ∧ (∀ c e, cookie = some c →
      (∀ b, bearer = some b → (str "Bearer ").isPrefixOf b = false) →
      E.oidcCookieDecode c = .error e →
      authenticate E (some ip) cookie bearer path session =
        Except.error (.auth (.InvalidSessionToken (str "cookie: " ++ e)))) := by
  constructor
  · intro b hb hpre hdec
    subst hb
    unfold authenticate
    simp only [hpre, if_true, hdec]
  · intro c e hc hpre hdec
    subst hc
    cases hb : bearer with
    | none =>
      unfold authenticate
      simp only [parse_auth_cookie, hdec, Except.map]
    | some b =>
      have hp := hpre b hb
      unfold authenticate
      simp only [hp, Bool.false_eq_true, if_false, parse_auth_cookie, hdec, Except.map]

/-- C2 witness: both decode-failure outcomes at concrete credentials. -/
theorem authenticate_decode_failure_witness :
    authenticate ExtZero (some ip0) none (some (str "Bearer xyz")) (str "/p") sessEmpty =
      Except.error (.auth .NoSessionToken)
    ∧ authenticate ExtZero (some ip0) (some (str "junk")) none (str "/p") sessEmpty =
        Except.error (.auth (.InvalidSessionToken (str "cookie: bad json"))) :=
  ⟨(authenticate_decode_failure ExtZero ip0 none (some (str "Bearer xyz"))
      (str "/p") sessEmpty).1 (str "Bearer xyz") rfl (by decide) (by decide),
   (authenticate_decode_failure ExtZero ip0 (some (str "junk")) none
      (str "/p") sessEmpty).2 (str "junk") (str "bad json") rfl
      (fun b hb => Option.noConfusion hb) (by decide)⟩

/-- C9: with no IdP configured the guard consults only the cookie
(the bearer header is ignored): a cookie decoding as a `NoAuthToken`
yields the fake local identity built from its `user_id`, and a missing
cookie yields `NoSessionToken` whatever the bearer header holds. -/
theorem authenticate_without_idp (E : Ext) (cookie bearer : Option Str)
    (path : Str) (session : Session) :
    (∀ c u, cookie = some c → E.noAuthCookieDecode c = .ok u →
      authenticate E none cookie bearer path session =
        .ok ({ id := u, username := str "FAKE_NAME", email := str "FAKE_EMAIL",
               email_verified := false, given_name := none, family_name := none },
             session))
  ∧ (cookie = none →
      authenticate E none cookie bearer path session =
        Except.error (.auth .NoSessionToken)) := by
  constructor
  · intro c u hc hu
    subst hc
    simp only [authenticate, hu]
  · intro hc
    subst hc
    rfl

/-- C9 witness: the fake identity and the missing-cookie rejection at
concrete requests that both carry a bearer header. -/
theorem authenticate_without_idp_witness :
    authenticate ExtZero none (some (str "uid7")) (some (str "Bearer idtok:a:n"))
        (str "/p") sessEmpty =
      .ok ({ id := 7, username := str "FAKE_NAME", email := str "FAKE_EMAIL",
             email_verified := false, given_name := none, family_name := none },
           sessEmpty)
    ∧ authenticate ExtZero none none (some (str "Bearer idtok:a:n")) (str "/p") sessEmpty =
        Except.error (.auth .NoSessionToken) :=
  ⟨(authenticate_without_idp ExtZero (some (str "uid7")) (some (str "Bearer idtok:a:n"))
      (str "/p") sessEmpty).1 (str "uid7") 7 rfl (by decide),
   (authenticate_without_idp ExtZero none (some (str "Bearer idtok:a:n"))
      (str "/p") sessEmpty).2 rfl⟩

/-- C10 counterexample: on an unchanged session, `store_auth_cookie` does
not pass the reply through untouched — it wraps it in the workaround
`Server: Subseq` header (no auth cookie, though), against the claim's
"only the session attachment added". -/
theorem store_auth_cookie_passthrough_counterexample :
    store_auth_cookie ExtZero (Reply.response (str "b")) sessTok =
      (Reply.withHeader (str "Server") (str "Subseq") (Reply.response (str "b")), sessTok)
    ∧ Reply.withHeader (str "Server") (str "Subseq") (Reply.response (str "b")) ≠
        Reply.response (str "b")
    ∧ sessTok.data_changed = false := by
  exact ⟨by decide, by decide, by decide⟩

/-- C10 (amended): `store_auth_cookie` adds the auth `Set-Cookie` header
exactly when the session data changed and a raw `token` value is stored;
in every other case no auth cookie is set and the reply instead gains the
fixed `Server: Subseq` workaround header along with the session
attachment. -/
theorem store_auth_cookie_cases (E : Ext) (reply : Reply) (session : Session) :
    (session.data_changed = false →
      store_auth_cookie E reply session =
        (.withHeader (str "Server") (str "Subseq") reply, session))
  ∧ (session.data_changed = true → session.get_raw E (str "token") = none →
      store_auth_cookie E reply session =
        (.withHeader (str "Server") (str "Subseq") reply, session))
  ∧ (∀ v, session.data_changed = true → session.get_raw E (str "token") = some v →
      store_auth_cookie E reply session =
        (.withHeader (str "Set-Cookie") (authCookieStr v) reply, session)) := by
  refine ⟨?_, ?_, ?_⟩
  · intro h
    unfold store_auth_cookie
    rw [if_pos h]
  · intro h hv
    unfold store_auth_cookie
    rw [if_neg (by rw [h]; exact Bool.true_eq_false ▸ (by simp)), hv]
  · intro v h hv
    unfold store_auth_cookie
    rw [if_neg (by rw [h]; exact Bool.true_eq_false ▸ (by simp)), hv]

/-- C10 witness: the three cases at concrete sessions. -/
theorem store_auth_cookie_cases_witness :
    store_auth_cookie ExtZero (Reply.response (str "b")) sessTok =
      (Reply.withHeader (str "Server") (str "Subseq") (Reply.response (str "b")), sessTok)
    ∧ store_auth_cookie ExtZero (Reply.response (str "b")) sessChangedNoTok =
        (Reply.withHeader (str "Server") (str "Subseq") (Reply.response (str "b")),
         sessChangedNoTok)
    ∧ store_auth_cookie ExtZero (Reply.response (str "b")) sessChangedTok =
        (Reply.withHeader (str "Set-Cookie") (authCookieStr (str "serialized"))
           (Reply.response (str "b")), sessChangedTok) :=
  ⟨(store_auth_cookie_cases ExtZero (Reply.response (str "b")) sessTok).1 (by decide),
   (store_auth_cookie_cases ExtZero (Reply.response (str "b")) sessChangedNoTok).2.1
     (by decide) (by decide),
   (store_auth_cookie_cases ExtZero (Reply.response (str "b")) sessChangedTok).2.2
     (str "serialized") (by decide) (by decide)⟩

/-- C7 counterexample: `logout_handler` (the IdP `/auth/logout` route)
returns the session unchanged — the stored Token Bundle survives and the
session is not destroyed, against the claim that logout destroys the
session's stored state. -/
theorem logout_handler_keeps_session_counterexample :
    (logout_handler ExtZero ip0 sessTok (str "cookie0")).map (fun rs => rs.2) =
      Except.ok sessTok
    ∧ sessTok.get (str "token") = some (.vOidc tok0)
    ∧ sessTok.destroyed = false := by
  exact ⟨by decide, by decide, by decide⟩

/-- C7 (amended): the `/oauth/logout` route destroys the session (so the
store drops its Flow State and Token Bundle) and clears the auth cookie
with `Max-Age=0`; the IdP `/auth/logout` handler clears the auth cookie
with `Max-Age=0` on its redirect but passes the session through with its
stored state intact. -/
theorem logout_clears_cookie (E : Ext) (ip : IdentityProvider) (session : Session) :
    ((oauth_logout session).2.destroyed = true
      ∧ (oauth_logout session).1.hasHeader (str "Set-Cookie") clearCookie = true)
  ∧ (∀ ctok tok, parse_auth_cookie E ctok = .ok tok →
      (logout_handler E ip session ctok).map
          (fun rs => (rs.1.hasHeader (str "Set-Cookie") clearCookie, rs.2)) =
        Except.ok (true, session)) := by
  constructor
  · exact ⟨rfl, rfl⟩
  · intro ctok tok h
    unfold logout_handler
    rw [h]
    rfl

/-- C7 witness: both logout behaviors at a concrete session holding a
token bundle. -/
theorem logout_clears_cookie_witness :
    parse_auth_cookie ExtZero (str "cookie0") = .ok tok0
    ∧ ((oauth_logout sessTok).2.destroyed = true
        ∧ (oauth_logout sessTok).1.hasHeader (str "Set-Cookie") clearCookie = true)
    ∧ (logout_handler ExtZero ip0 sessTok (str "cookie0")).map
          (fun rs => (rs.1.hasHeader (str "Set-Cookie") clearCookie, rs.2)) =
        Except.ok (true, sessTok) :=
  ⟨by decide, (logout_clears_cookie ExtZero ip0 sessTok).1,
   (logout_clears_cookie ExtZero ip0 sessTok).2 (str "cookie0") tok0 (by decide)⟩

end Subseq
